import Mathlib

/-!
Shallow embedding of the entitlement and access-control core of the
FacilitaMed backend (two Python sources: `src/main.py`, the identity-only
implementation, and `src/app/main.py`, the entitlement-aware implementation).

Modelling conventions:
- timestamps (`datetime.utcnow()`) are natural numbers counting seconds;
  `timedelta(days=30)` is the constant `thirtyDays`;
- the SQL user table keyed by email is an association list `Db`;
- HTTP failure is `Except.error` carrying the status code (and detail
  where a claim needs it);
- external collaborators (Firebase token verification, Stripe session
  retrieval) are oracle parameters: functions from the token / session id
  to an `Except` describing what the external call returned;
- the Python string primitives the code uses (`.lower()`,
  `.split("@")[-1]`, `in`, `.startswith`, `.strip()`) are re-implemented
  by structural recursion over the character list of the string, so that
  every definition evaluates inside the kernel.
-/

namespace FacilitaMed

/-- Python `s.lower()`: lower-case every character. -/
def lower (s : String) : String := ⟨s.data.map Char.toLower⟩

/-- Python `s.split("@")[-1]`: the part after the last `@`, or the whole
string when no `@` occurs. -/
def afterLastAt (s : String) : String :=
  ⟨(s.data.reverse.takeWhile (fun c => c != '@')).reverse⟩

/-- Python `needle in hay` on strings (substring test). -/
def containsSub (needle hay : List Char) : Bool :=
  match hay with
  | [] => needle.isEmpty
  | _ :: rest => needle.isPrefixOf hay || containsSub needle rest

/-- Python `s.strip()`: drop whitespace from both ends. -/
def stripChars (l : List Char) : List Char :=
  ((l.dropWhile Char.isWhitespace).reverse.dropWhile Char.isWhitespace).reverse

/-- Embeds the `User` SQLModel table of `src/app/main.py`
(`email` primary key, `is_active`, `plan_expires_at`, `created_at`). -/
structure User where
  email : String
  is_active : Bool
  plan_expires_at : Option Nat
  created_at : Nat
deriving Repr, DecidableEq

/-- The user table: association list keyed by (already lower-cased) email,
standing for the SQL table with `email` as primary key. -/
abbrev Db := List (String × User)

/-- Embeds `Session.get(User, k)`: lookup by primary key. -/
def dbGet (db : Db) (k : String) : Option User :=
  match db with
  | [] => none
  | (k1, v1) :: rest => if k1 == k then some v1 else dbGet rest k

/-- Embeds `db.add(u); db.commit()` on a row whose key already exists (or a fresh
insert): replace the row for `k`, or append it. -/
def dbSet (db : Db) (k : String) (v : User) : Db :=
  match db with
  | [] => [(k, v)]
  | (k1, v1) :: rest => if k1 == k then (k, v) :: rest else (k1, v1) :: dbSet rest k v

/-- The grant window `timedelta(days=30)`, in seconds. -/
def thirtyDays : Nat := 30 * 86400

/-- The Python expression
`not user.plan_expires_at or user.plan_expires_at > datetime.utcnow()`:
`None` is falsy, a datetime is always truthy, so the plan is unexpired when
no expiry is set or the expiry is strictly in the future. -/
def planActive (expires : Option Nat) (now : Nat) : Bool :=
  match expires with
  | none => true
  | some e => now < e

/-- Embeds `require_active_user` of `src/app/main.py`: admit the user when
`user.is_active and (not user.plan_expires_at or user.plan_expires_at >
datetime.utcnow())`, else raise `HTTPException(402, ...)`. -/
def require_active_user (u : User) (now : Nat) : Except Nat User :=
  if u.is_active && planActive u.plan_expires_at now then Except.ok u
  else Except.error 402

/-- The dict returned by `stripe.checkout.Session.retrieve`: only the two
fields the code reads, each read with `.get` (hence optional). -/
structure StripeSession where
  status : Option String
  payment_status : Option String
deriving Repr, DecidableEq

/-- The JSON body `verify_session` returns on the non-exception path. -/
structure VerifyResult where
  ok : Bool
  status : Option String
  payment_status : Option String
deriving Repr, DecidableEq

/-- Embeds `verify_session` of `src/app/main.py`.  `retrieve` is the
Stripe oracle: what `stripe.checkout.Session.retrieve(session_id)` does
(succeeds with a session dict, or raises).  The result pairs the HTTP
outcome with the user table after the call.  Control flow of the source:
missing secret key raises 500 before the `try`; a raising `retrieve` is
caught and re-raised as 400 with the provider detail, before any table
write; on `payment_status == "paid" or status == "complete"` the row for
`user.email.lower()` (when present) is updated to
`is_active=True, plan_expires_at=utcnow()+30 days` and `ok=True` is
returned with the raw provider fields; otherwise `ok=False` with the raw
fields and no write. -/
def verify_session (stripe_secret_key : String)
    (retrieve : String → Except String StripeSession)
    (session_id : String) (userEmail : String) (now : Nat) (db : Db) :
    Except (Nat × String) VerifyResult × Db :=
  if stripe_secret_key = "" then
    (Except.error (500, "Stripe não configurado"), db)
  else
    match retrieve session_id with
    | Except.error e => (Except.error (400, "Stripe verify error: " ++ e), db)
    | Except.ok s =>
      if s.payment_status == some ("paid") || s.status == some ("complete") then
        match dbGet db (lower userEmail) with
        | some u =>
          (Except.ok ⟨true, s.status, s.payment_status⟩,
           dbSet db (lower userEmail)
             { u with is_active := true, plan_expires_at := some (now + thirtyDays) })
        | none => (Except.ok ⟨true, s.status, s.payment_status⟩, db)
      else
        (Except.ok ⟨false, s.status, s.payment_status⟩, db)

/-- Embeds `domain_allowed` of `src/app/main.py`.  `allowedEmails` and
`allowedDomains` are the parsed `ALLOWED_EMAILS` / `ALLOWED_DOMAINS`
environment sets (already lower-cased and stripped at startup).  The
source returns `True` when the exact set is non-empty and contains the
lower-cased email, or the domain set is non-empty and contains the
lower-cased email's domain (`email.lower().split("@")[-1]`); the
fall-through returns `not (ALLOWED_EMAILS or ALLOWED_DOMAINS)`, i.e.
`True` exactly when both sets are empty. -/
def domain_allowed (allowedEmails allowedDomains : List String)
    (email : String) : Bool :=
  if !allowedEmails.isEmpty && allowedEmails.contains (lower email) then true
  else if !allowedDomains.isEmpty &&
      allowedDomains.contains (afterLastAt (lower email)) then true
  else allowedEmails.isEmpty && allowedDomains.isEmpty

/-- The decoded Firebase ID token: the claims the two sources read. -/
structure Decoded where
  uid : String
  aud : Option String
  iss : String
  email : Option String
deriving Repr, DecidableEq

/-- The authentication failures of the two sources, with their HTTP status. -/
inductive AuthErr where
  | missingCredential
  | invalidToken (detail : String)
  | wrongAudience (aud : Option String) (iss : String)
  | emailMissing
  | forbidden
deriving Repr, DecidableEq

/-- HTTP status of each failure: `forbidden` is 403, all others 401
(in `get_current_user` the audience failure is raised inside the `try`
and re-wrapped by the `except` clause, but its status stays 401). -/
def AuthErr.status : AuthErr → Nat
  | .forbidden => 403
  | _ => 401

/-- Embeds `get_current_user` of `src/main.py` (the identity-only
implementation).  `pid` is `FIREBASE_PROJECT_ID`; `verify` is the
`fb_auth.verify_id_token` oracle; `creds` is the parsed bearer credential
(scheme, token) or `none`.  After a successful decode, when `pid` is
configured and `aud != pid and pid not in iss` (a substring test on the
issuer), a 401 is raised (the wrong-audience branch); otherwise the
decoded claims are returned. -/
def get_current_user (pid : String) (verify : String → Except String Decoded)
    (creds : Option (String × String)) : Except AuthErr Decoded :=
  match creds with
  | none => Except.error AuthErr.missingCredential
  | some (scheme, token) =>
    if lower scheme != "bearer" then Except.error AuthErr.missingCredential
    else
      match verify token with
      | Except.error e => Except.error (AuthErr.invalidToken e)
      | Except.ok d =>
        if pid != "" && (d.aud != some pid && !(containsSub pid.data d.iss.data)) then
          Except.error (AuthErr.wrongAudience d.aud d.iss)
        else Except.ok d

/-- Embeds `verify_firebase_token` of `src/app/main.py` (the
entitlement-aware implementation): requires an `Authorization` header
starting with `"Bearer "`, strips the scheme
(`authorization.split(" ", 1)[1].strip()`, which given the checked
prefix is the stripped remainder after the first 7 characters), and
returns whatever the external verifier decodes.  It performs no audience
or issuer check. -/
def verify_firebase_token (verify : String → Except String Decoded)
    (authorization : Option String) : Except AuthErr Decoded :=
  match authorization with
  | none => Except.error AuthErr.missingCredential
  | some a =>
    if !(List.isPrefixOf ("Bearer ").data a.data) then
      Except.error AuthErr.missingCredential
    else
      match verify ⟨stripChars (a.data.drop 7)⟩ with
      | Except.error e => Except.error (AuthErr.invalidToken e)
      | Except.ok d => Except.ok d

/-- Embeds `get_user` of `src/app/main.py`, sequentially: verify the
token, require a non-empty email claim (Python truthiness: a missing or
empty email is 401), check the allow-list (403 on denial), then look the
row up by `email.lower()` and, when absent, insert a fresh row with
`is_active=False, plan_expires_at=None` (a check-then-insert, not an
atomic upsert).  Returns the user with the table after the call. -/
def get_user (verify : String → Except String Decoded)
    (allowedEmails allowedDomains : List String)
    (authorization : Option String) (now : Nat) (db : Db) :
    Except AuthErr User × Db :=
  match verify_firebase_token verify authorization with
  | Except.error e => (Except.error e, db)
  | Except.ok d =>
    let email := d.email.getD ("")
    if email = "" then (Except.error AuthErr.emailMissing, db)
    else if !(domain_allowed allowedEmails allowedDomains email) then
      (Except.error AuthErr.forbidden, db)
    else
      match dbGet db (lower email) with
      | some u => (Except.ok u, db)
      | none =>
        let u : User := ⟨lower email, false, none, now⟩
        (Except.ok u, dbSet db (lower email) u)

/-- Response body of `GET /me/status` in `src/main.py`. -/
structure StatusV1 where
  uid : String
  email : Option String
  active : Bool
deriving Repr, DecidableEq

/-- Response body of `GET /me/status` in `src/app/main.py`. -/
structure StatusV2 where
  email : String
  active : Bool
  plan_expires_at : Option Nat
deriving Repr, DecidableEq

/-- Embeds `me_status` of `src/main.py`: `active` is the literal `True`,
whatever the stored entitlement state. -/
def me_status_identity (d : Decoded) : StatusV1 :=
  ⟨d.uid, d.email, true⟩

/-- Embeds `me_status` of `src/app/main.py`: `active` is
`user.is_active and (not user.plan_expires_at or user.plan_expires_at >
datetime.utcnow())`. -/
def me_status_app (u : User) (now : Nat) : StatusV2 :=
  ⟨u.email, u.is_active && planActive u.plan_expires_at now, u.plan_expires_at⟩

/-! ## Store and policy lemmas -/

/-- Writing a row and reading it back at the same key yields the row. -/
theorem dbGet_dbSet (db : Db) (k : String) (v : User) :
    dbGet (dbSet db k v) k = some v := by
  induction db with
  | nil => simp [dbGet, dbSet]
  | cons p rest ih =>
    obtain ⟨k1, v1⟩ := p
    by_cases h : (k1 == k) = true
    · simp [dbSet, dbGet, h]
    · have hb : (k1 == k) = false := by simpa using h
      simp [dbSet, dbGet, hb, ih]

/-- On a non-empty guard, `bool-nonempty and contains` collapses to
`contains`, since `contains` is false on the empty list anyway. -/
theorem nonempty_and_contains (l : List String) (a : String) :
    (!l.isEmpty && l.contains a) = l.contains a := by
  cases l <;> simp

/-- Characterization of `domain_allowed`. -/
theorem domain_allowed_iff (es ds : List String) (email : String) :
    domain_allowed es ds email = true ↔
      (lower email ∈ es ∨ afterLastAt (lower email) ∈ ds ∨
       (es = [] ∧ ds = [])) := by
  unfold domain_allowed
  rw [nonempty_and_contains, nonempty_and_contains]
  by_cases h1 : es.contains (lower email) = true
  · simp [h1, List.elem_iff.mp h1]
  · have h1f : es.contains (lower email) = false := by simpa using h1
    by_cases h2 : ds.contains (afterLastAt (lower email)) = true
    · simp [h1f, h2, List.elem_iff.mp h2]
    · have h2f : ds.contains (afterLastAt (lower email)) = false := by
        simpa using h2
      have hm1 : lower email ∉ es := fun hm => h1 (List.elem_iff.mpr hm)
      have hm2 : afterLastAt (lower email) ∉ ds := fun hm =>
        h2 (List.elem_iff.mpr hm)
      simp [h1f, h2f, hm1, hm2, List.isEmpty_iff]

/-! ## Claims -/

/-- Claim C1: the entitlement gate `require_active_user` admits the caller
(returns the user rather than failing) iff `is_active` is set and the plan
expiry is absent or strictly in the future; at the boundary instant
`now = expiry` the caller is rejected; every rejection carries HTTP 402,
distinct from 401 (authentication) and 403 (policy denial). -/
theorem C1_entitlement_gate (u : User) (now : Nat) :
    (require_active_user u now = Except.ok u ↔
      (u.is_active = true ∧
        (u.plan_expires_at = none ∨
         ∃ e, u.plan_expires_at = some e ∧ now < e)))
    ∧ (require_active_user u now = Except.ok u ∨
       require_active_user u now = Except.error 402)
    ∧ require_active_user { u with plan_expires_at := some now } now
        = Except.error 402
    ∧ (402 : Nat) ≠ 401 ∧ (402 : Nat) ≠ 403 := by
  refine ⟨?_, ?_, ?_, by decide, by decide⟩
  · unfold require_active_user planActive
    cases ha : u.is_active <;> cases h : u.plan_expires_at
    · simp [ha, h]
    · simp [ha, h]
    · simp [ha, h]
    · rename_i e
      by_cases hlt : now < e <;> simp [ha, h, hlt]
  · unfold require_active_user
    split
    · exact Or.inl rfl
    · exact Or.inr rfl
  · unfold require_active_user planActive
    simp

/-- Claim C5: the access policy `domain_allowed` returns true iff the
lower-cased email is in the exact allow-set, or its domain (the exact
suffix after `@`) is in the domain allow-set, or both allow-sets are
empty (open policy: the claim's own examples pin its empty-allow-set
phrase to mean that no allow-list at all is configured).  In particular
`"a@b.com"` is allowed under exact-set `{"a@b.com"}` and empty
domain-set, `"x@b.com"` is denied under that configuration, and every
email is allowed when both sets are empty. -/
theorem C5_access_policy :
    (∀ (allowedEmails allowedDomains : List String) (email : String),
      domain_allowed allowedEmails allowedDomains email = true ↔
        (lower email ∈ allowedEmails ∨
         afterLastAt (lower email) ∈ allowedDomains ∨
         (allowedEmails = [] ∧ allowedDomains = [])))
    ∧ domain_allowed ["a@b.com"] [] "a@b.com" = true
    ∧ domain_allowed ["a@b.com"] [] "x@b.com" = false
    ∧ (∀ email, domain_allowed [] [] email = true) := by
  refine ⟨domain_allowed_iff, by decide, by decide, ?_⟩
  intro email
  simp [domain_allowed]

/-! ## Concrete fixtures used by witnesses and counterexamples -/

/-- A session the provider reports as paid and complete. -/
def paidSession : StripeSession := ⟨some ("complete"), some ("paid")⟩

/-- A Stripe oracle answering every retrieval with `paidSession`. -/
def paidRetrieve : String → Except String StripeSession :=
  fun _ => Except.ok paidSession

/-- A session the provider reports as neither paid nor complete. -/
def unpaidSession : StripeSession := ⟨some ("open"), some ("unpaid")⟩

/-- A Stripe oracle answering every retrieval with `unpaidSession`. -/
def unpaidRetrieve : String → Except String StripeSession :=
  fun _ => Except.ok unpaidSession

/-- A freshly created, never-entitled account row. -/
def baseUser : User := ⟨"a@b.com", false, none, 0⟩

/-- A table holding only `baseUser`. -/
def baseDb : Db := [("a@b.com", baseUser)]

/-- A decoded token whose audience and issuer match no project id. -/
def mismatchDecoded : Decoded :=
  ⟨"u1", some ("other"), "otheriss", some ("doc@clinic.org")⟩

/-- A verifier oracle that accepts every token as `mismatchDecoded`. -/
def mismatchVerify : String → Except String Decoded :=
  fun _ => Except.ok mismatchDecoded

/-! ## Claims about reconciliation -/

/-- Claim C2: for an account present in the store and a session the
provider reports as paid or completed, `verify_session` returns a
confirmation carrying the provider's raw `status` and `payment_status`
fields and updates the caller's row to `is_active=true`,
`plan_expires_at = now + 30 days`. -/
theorem C2_reconcile_paid_activates
    (key : String) (retrieve : String → Except String StripeSession)
    (session_id userEmail : String) (now : Nat) (db : Db)
    (s : StripeSession) (u : User)
    (hkey : key ≠ "")
    (hret : retrieve session_id = Except.ok s)
    (hpaid : s.payment_status = some ("paid") ∨ s.status = some ("complete"))
    (hu : dbGet db (lower userEmail) = some u) :
    (verify_session key retrieve session_id userEmail now db).1
        = Except.ok ⟨true, s.status, s.payment_status⟩
    ∧ dbGet (verify_session key retrieve session_id userEmail now db).2
          (lower userEmail)
        = some { u with is_active := true,
                        plan_expires_at := some (now + thirtyDays) } := by
  have hcond : (s.payment_status == some ("paid")
      || s.status == some ("complete")) = true := by
    rcases hpaid with h | h <;> simp [h]
  constructor <;> simp [verify_session, hkey, hret, hcond, hu, dbGet_dbSet]

/-- Witness for C2 at a concrete paid session and stored account. -/
theorem C2_reconcile_paid_activates_witness :
    ("sk" : String) ≠ ""
    ∧ paidRetrieve ("cs_1") = Except.ok paidSession
    ∧ (paidSession.payment_status = some ("paid")
       ∨ paidSession.status = some ("complete"))
    ∧ dbGet baseDb (lower ("A@b.com")) = some baseUser
    ∧ (verify_session ("sk") paidRetrieve ("cs_1") ("A@b.com") 100 baseDb).1
        = Except.ok ⟨true, paidSession.status, paidSession.payment_status⟩
    ∧ dbGet (verify_session ("sk") paidRetrieve ("cs_1") ("A@b.com") 100 baseDb).2
          (lower ("A@b.com"))
        = some { baseUser with is_active := true,
                               plan_expires_at := some (100 + thirtyDays) } := by
  have h := C2_reconcile_paid_activates ("sk") paidRetrieve ("cs_1") ("A@b.com")
    100 baseDb paidSession baseUser (by decide) rfl (Or.inl rfl) (by decide)
  exact ⟨by decide, rfl, Or.inl rfl, by decide, h.1, h.2⟩

/-- Claim C3, evaluated at its failing input: the code has no per-session
idempotence guard, so reconciling the same already-applied paid session a
second time, 100 seconds later, re-extends the expiry window to
`200 + 30 days`, strictly beyond the single `100 + 30 days` grant of the
first confirmation. -/
theorem C3_repeat_reconcile_extends_window :
    dbGet (verify_session ("sk") paidRetrieve ("cs_1") ("a@b.com") 100 baseDb).2
        ("a@b.com")
      = some ⟨"a@b.com", true, some (100 + thirtyDays), 0⟩
    ∧ dbGet (verify_session ("sk") paidRetrieve ("cs_1") ("a@b.com") 200
          (verify_session ("sk") paidRetrieve ("cs_1") ("a@b.com") 100 baseDb).2).2
        ("a@b.com")
      = some ⟨"a@b.com", true, some (200 + thirtyDays), 0⟩
    ∧ 100 + thirtyDays < 200 + thirtyDays := by
  exact ⟨rfl, rfl, by decide⟩

/-- Claim C4: for a session the provider reports as neither paid nor
completed, `verify_session` returns `ok=false` with the provider's raw
status fields and returns the table unchanged. -/
theorem C4_reconcile_unpaid_frame
    (key : String) (retrieve : String → Except String StripeSession)
    (session_id userEmail : String) (now : Nat) (db : Db)
    (s : StripeSession)
    (hkey : key ≠ "")
    (hret : retrieve session_id = Except.ok s)
    (hnp : s.payment_status ≠ some ("paid"))
    (hnc : s.status ≠ some ("complete")) :
    verify_session key retrieve session_id userEmail now db
      = (Except.ok ⟨false, s.status, s.payment_status⟩, db) := by
  have hcond : (s.payment_status == some ("paid")
      || s.status == some ("complete")) = false := by
    simp [hnp, hnc]
  simp [verify_session, hkey, hret, hcond]

/-- Witness for C4 at a concrete unpaid session. -/
theorem C4_reconcile_unpaid_frame_witness :
    ("sk" : String) ≠ ""
    ∧ unpaidRetrieve ("cs_1") = Except.ok unpaidSession
    ∧ unpaidSession.payment_status ≠ some ("paid")
    ∧ unpaidSession.status ≠ some ("complete")
    ∧ verify_session ("sk") unpaidRetrieve ("cs_1") ("a@b.com") 100 baseDb
        = (Except.ok ⟨false, unpaidSession.status,
            unpaidSession.payment_status⟩, baseDb) := by
  exact ⟨by decide, rfl, by decide, by decide,
    C4_reconcile_unpaid_frame ("sk") unpaidRetrieve ("cs_1") ("a@b.com") 100 baseDb
      unpaidSession (by decide) rfl (by decide) (by decide)⟩

/-- Claim C7 (amended): when the provider query itself raises, the
operation surfaces the provider detail as HTTP 400 (not 500/502; the
separate missing-key misconfiguration is HTTP 500), and the table is
returned unchanged — the failure is never treated as entitled or
not-entitled. -/
theorem C7_provider_error_surfaced_no_mutation
    (key : String) (retrieve : String → Except String StripeSession)
    (session_id userEmail : String) (now : Nat) (db : Db) (e : String)
    (hkey : key ≠ "")
    (hret : retrieve session_id = Except.error e) :
    verify_session key retrieve session_id userEmail now db
      = (Except.error (400, "Stripe verify error: " ++ e), db)
    ∧ verify_session ("") retrieve session_id userEmail now db
      = (Except.error (500, "Stripe não configurado"), db) := by
  constructor
  · simp [verify_session, hkey, hret]
  · simp [verify_session]

/-- Witness for C7 at a concrete failing provider query. -/
theorem C7_provider_error_surfaced_no_mutation_witness :
    ("sk" : String) ≠ ""
    ∧ (fun (_ : String) => (Except.error ("network down") :
        Except String StripeSession)) ("cs_1") = Except.error ("network down")
    ∧ verify_session ("sk")
        (fun _ => Except.error ("network down")) ("cs_1") ("a@b.com") 0 baseDb
        = (Except.error (400, "Stripe verify error: network down"), baseDb)
    ∧ verify_session ("")
        (fun _ => Except.error ("network down")) ("cs_1") ("a@b.com") 0 baseDb
        = (Except.error (500, "Stripe não configurado"), baseDb) := by
  have h := C7_provider_error_surfaced_no_mutation ("sk")
    (fun _ => Except.error ("network down")) ("cs_1") ("a@b.com") 0 baseDb
    ("network down") (by decide) rfl
  exact ⟨by decide, rfl, h.1, h.2⟩

/-- Counterexample to C7 as stated: the claim maps a failing provider
query to HTTP 500/502, but the code re-raises it as HTTP 400 (only the
missing-key misconfiguration is 500). -/
theorem C7_provider_error_status_counterexample :
    (verify_session ("sk") (fun _ => Except.error ("network down"))
        "cs_1" "a@b.com" 0 []).1
      = Except.error (400, "Stripe verify error: network down")
    ∧ (400 : Nat) ≠ 500 ∧ (400 : Nat) ≠ 502 := by
  exact ⟨rfl, by decide, by decide⟩

/-- Claim C9: a paid session for a caller with no row in the store is
still acknowledged with `ok=true` and the provider's raw fields, while
the table is returned unchanged — the confirmed payment activates
nothing. -/
theorem C9_paid_without_account_no_mutation
    (key : String) (retrieve : String → Except String StripeSession)
    (session_id userEmail : String) (now : Nat) (db : Db)
    (s : StripeSession)
    (hkey : key ≠ "")
    (hret : retrieve session_id = Except.ok s)
    (hpaid : s.payment_status = some ("paid") ∨ s.status = some ("complete"))
    (hnone : dbGet db (lower userEmail) = none) :
    verify_session key retrieve session_id userEmail now db
      = (Except.ok ⟨true, s.status, s.payment_status⟩, db) := by
  have hcond : (s.payment_status == some ("paid")
      || s.status == some ("complete")) = true := by
    rcases hpaid with h | h <;> simp [h]
  simp [verify_session, hkey, hret, hcond, hnone]

/-- Witness for C9: paid session, empty store. -/
theorem C9_paid_without_account_no_mutation_witness :
    ("sk" : String) ≠ ""
    ∧ paidRetrieve ("cs_1") = Except.ok paidSession
    ∧ (paidSession.payment_status = some ("paid")
       ∨ paidSession.status = some ("complete"))
    ∧ dbGet [] (lower ("ghost@b.com")) = none
    ∧ verify_session ("sk") paidRetrieve ("cs_1") ("ghost@b.com") 100 []
        = (Except.ok ⟨true, paidSession.status,
            paidSession.payment_status⟩, []) := by
  exact ⟨by decide, rfl, Or.inl rfl, rfl,
    C9_paid_without_account_no_mutation ("sk") paidRetrieve ("cs_1") ("ghost@b.com")
      100 [] paidSession (by decide) rfl (Or.inl rfl) rfl⟩

/-! ## Claims about identity verification and status reporting -/

/-- Claim C6 (amended): the audience check lives only in the
identity-only implementation.  There, `get_current_user` with a
configured project id rejects with a 401 wrong-audience failure whenever
the token's audience differs from the id and the id does not occur as a
substring of the issuer, and with no id configured the same
mismatched-audience token is accepted. -/
theorem C6_audience_check_identity_impl
    (pid : String) (verify : String → Except String Decoded)
    (scheme token : String) (d : Decoded)
    (hs : lower scheme = "bearer")
    (hv : verify token = Except.ok d)
    (hpid : pid ≠ "")
    (haud : d.aud ≠ some pid)
    (hocc : containsSub pid.data d.iss.data = false) :
    get_current_user pid verify (some (scheme, token))
      = Except.error (AuthErr.wrongAudience d.aud d.iss)
    ∧ (AuthErr.wrongAudience d.aud d.iss).status = 401
    ∧ get_current_user ("") verify (some (scheme, token)) = Except.ok d := by
  refine ⟨?_, rfl, ?_⟩
  · simp [get_current_user, hs, hv, hpid, haud, hocc]
  · simp [get_current_user, hs, hv]

/-- Witness for C6 at a concrete mismatched token. -/
theorem C6_audience_check_identity_impl_witness :
    lower ("Bearer") = "bearer"
    ∧ mismatchVerify ("t") = Except.ok mismatchDecoded
    ∧ ("proj" : String) ≠ ""
    ∧ mismatchDecoded.aud ≠ some ("proj")
    ∧ containsSub ("proj").data mismatchDecoded.iss.data = false
    ∧ get_current_user ("proj") mismatchVerify (some ("Bearer", "t"))
        = Except.error
            (AuthErr.wrongAudience mismatchDecoded.aud mismatchDecoded.iss)
    ∧ get_current_user ("") mismatchVerify (some ("Bearer", "t"))
        = Except.ok mismatchDecoded := by
  have h := C6_audience_check_identity_impl ("proj") mismatchVerify ("Bearer") ("t")
    mismatchDecoded (by decide) rfl (by decide) (by decide) (by decide)
  exact ⟨by decide, rfl, by decide, by decide, by decide, h.1, h.2.2⟩

/-- Counterexample to C6 as stated: the coexisting entitlement-aware
implementation (`verify_firebase_token`, which takes no project id at
all) accepts a successfully decoded token even though a non-empty
project id `"proj"` is configured and neither the token's audience nor
its issuer matches it. -/
theorem C6_app_impl_ignores_audience_counterexample :
    verify_firebase_token mismatchVerify (some ("Bearer t"))
      = Except.ok mismatchDecoded
    ∧ ("proj" : String) ≠ ""
    ∧ mismatchDecoded.aud ≠ some ("proj")
    ∧ containsSub ("proj").data mismatchDecoded.iss.data = false := by
  exact ⟨rfl, by decide, by decide, by decide⟩

/-- Claim C10: the identity-only `/me/status` reports `active = true`
unconditionally, so the two coexisting implementations of the endpoint
disagree exactly on the accounts that are not currently entitled
(`is_active` unset, or expiry at or before now). -/
theorem C10_status_implementations_disagree
    (d : Decoded) (u : User) (now : Nat) :
    (me_status_identity d).active = true
    ∧ ((me_status_app u now).active ≠ (me_status_identity d).active ↔
        ¬(u.is_active = true ∧
          (u.plan_expires_at = none ∨
           ∃ e, u.plan_expires_at = some e ∧ now < e))) := by
  refine ⟨rfl, ?_⟩
  unfold me_status_app me_status_identity planActive
  cases ha : u.is_active <;> cases h : u.plan_expires_at
  · simp [ha, h]
  · simp [ha, h]
  · simp [ha, h]
  · rename_i e
    by_cases hlt : now < e <;> simp [ha, h, hlt]

end FacilitaMed
